import Mathlib

/-!
Verification development for the videogameguesser repository.

This file gives a shallow embedding of the two core modules,
`src/lib/quiz-session.ts` and `src/lib/curated-games-loader.ts`, and proves
properties of the embedded definitions.

Modelling conventions:
* JavaScript numbers that the code treats as integers (timestamps from
  `Date.now()`, `currentQuestion`, `score`, years, ids) are embedded as `Int`;
  game ratings, which the data pipeline produces with `parseFloat`, are
  embedded as `Rat` (exact rationals; the code only compares them).
* `Date.now()` and `crypto.randomUUID()` are impure; every embedded operation
  that reads them takes the produced value (`now`, `id`) as an explicit
  argument.
* `localStorage` persistence (`saveSession`) is a side effect outside the
  value-level state transition and is dropped; `loadSession` is embedded as a
  function of the stored blob (missing / malformed / parsed), since
  `JSON.parse` failures are caught and mapped to `null` by the code.
* JavaScript array indexing `arr[i]` (which yields `undefined` out of range,
  including for negative `i`) is embedded as `jsGet` returning `Option`.
* `Math.random()`-driven choices are embedded as explicit arguments: an index
  choice `n` for `arr[Math.floor(Math.random() * arr.length)]` becomes
  `n % arr.length` (exactly the reachable indices), and each comparator-based
  shuffle `.sort(() => Math.random() - 0.5)` becomes an explicit function
  argument which the theorems assume maps every list to a permutation of it.
* `throw new Error(msg)` in the loader is embedded as `Except.error` with a
  structured error carrying the thrown message via `loaderErrorMessage`.
-/

/-- JavaScript array indexing: `l[i]` is `undefined` when `i` is negative or
past the end. -/
def jsGet {α : Type} (l : List α) (i : Int) : Option α :=
  if 0 ≤ i then l[i.toNat]? else none

/-- The `Game` shape constructed by the loader (`src/lib/types`), as used in
the result of `getRandomGameWithScreenshot` and stored in session game data. -/
structure Game where
  id : Int
  name : String
  background_image : String
  slug : String
  deriving Repr, DecidableEq

/-- One entry of `QuizSession.gameData` (the anonymous record type
`QuizSession['gameData'][0]` in `src/lib/quiz-session.ts`). -/
structure GameData where
  game : Game
  screenshot : String
  options : List String
  correctAnswer : String
  deriving Repr, DecidableEq

/-- `QuizAnswer` from `src/lib/quiz-session.ts`. -/
structure QuizAnswer where
  questionIndex : Int
  selectedOption : String
  correctAnswer : String
  isCorrect : Bool
  answeredAt : Int
  deriving Repr, DecidableEq

/-- `QuizSession` from `src/lib/quiz-session.ts`. The optional field
`completedAt?` is an `Option`. -/
structure QuizSession where
  id : String
  startedAt : Int
  currentQuestion : Int
  score : Int
  answers : List QuizAnswer
  gameData : List GameData
  isComplete : Bool
  completedAt : Option Int
  deriving Repr, DecidableEq

/-- `createNewSession` from `src/lib/quiz-session.ts`; `id` is the value of
`generateSessionId()` and `now` the value of `Date.now()`. -/
def createNewSession (id : String) (now : Int) : QuizSession :=
  { id := id
    startedAt := now
    currentQuestion := 1
    score := 0
    answers := []
    gameData := []
    isComplete := false
    completedAt := none }

/-- The persisted blob seen by `loadSession`: the key can be absent, hold a
string `JSON.parse` rejects, or hold a string parsing to a session value. -/
inductive StoredBlob where
  | missing
  | malformed
  | parsed (s : QuizSession)
  deriving Repr, DecidableEq

/-- `loadSession` from `src/lib/quiz-session.ts`.  A missing blob returns
`null`; a `JSON.parse` failure is caught and returns `null`; a parsed session
is checked with `!session.id || !session.startedAt || session.currentQuestion < 1`
(string falsy means empty, number falsy means zero) and rejected to `null` on
failure, otherwise returned. -/
def loadSession : StoredBlob → Option QuizSession
  | .missing => none
  | .malformed => none
  | .parsed s =>
      if s.id == "" || s.startedAt == 0 || s.currentQuestion < 1 then none
      else some s

/-- `updateSessionGameData` from `src/lib/quiz-session.ts`.  The `while` loop
pushes a copy of `gameData` until the array length exceeds `questionIndex`
(so it runs `questionIndex + 1 - length` times, truncated at zero), then the
entry at `questionIndex` is overwritten. -/
def updateSessionGameData (s : QuizSession) (questionIndex : Nat) (gd : GameData) :
    QuizSession :=
  let padded := s.gameData ++ List.replicate (questionIndex + 1 - s.gameData.length) gd
  { s with gameData := padded.set questionIndex gd }

/-- `submitAnswer` from `src/lib/quiz-session.ts`; `now` is the value of
`Date.now()` used for `answeredAt`.  The `throw` becomes `Except.error`. -/
def submitAnswer (s : QuizSession) (selectedOption : String) (now : Int) :
    Except String QuizSession :=
  let currentIndex := s.currentQuestion - 1
  match jsGet s.gameData currentIndex with
  | none => .error "No game data found for current question"
  | some gameData =>
      let isCorrect := selectedOption == gameData.correctAnswer
      let answer : QuizAnswer :=
        { questionIndex := currentIndex
          selectedOption := selectedOption
          correctAnswer := gameData.correctAnswer
          isCorrect := isCorrect
          answeredAt := now }
      .ok { s with
              score := if isCorrect then s.score + 1 else s.score
              answers := s.answers ++ [answer] }

/-- `advanceToNextQuestion` from `src/lib/quiz-session.ts`; `now` is the value
of `Date.now()` used for `completedAt`. -/
def advanceToNextQuestion (s : QuizSession) (maxQuestions : Int) (now : Int) :
    QuizSession :=
  let s1 := { s with currentQuestion := s.currentQuestion + 1 }
  if s1.currentQuestion > maxQuestions then
    { s1 with isComplete := true, completedAt := some now }
  else s1

/-- The `for` loop of `validateQuizIntegrity` checking
`answers[i].questionIndex !== i`, with `k` the index of the head. -/
def answersOrdered : List QuizAnswer → Int → Bool
  | [], _ => true
  | a :: rest, k => a.questionIndex == k && answersOrdered rest (k + 1)

/-- `validateQuizIntegrity` from `src/lib/quiz-session.ts`; `now` is the value
of `Date.now()` read inside. -/
def validateQuizIntegrity (s : QuizSession) (now : Int) : Bool :=
  if s.id == "" || s.startedAt == 0 then false
  else if !answersOrdered s.answers 0 then false
  else if s.currentQuestion != (s.answers.length : Int) + 1 then false
  else if s.startedAt > now then false
  else if s.answers.any (fun a => a.answeredAt < s.startedAt || a.answeredAt > now)
    then false
  else true

/-- The session invariant named by the specification: the 1-based round
cursor is one past the answer log. -/
def cursorInvariant (s : QuizSession) : Prop :=
  s.currentQuestion = (s.answers.length : Int) + 1

instance (s : QuizSession) : Decidable (cursorInvariant s) := by
  unfold cursorInvariant; infer_instance

/-- Sessions reachable from `createNewSession` by recording round content and
by complete submit-then-advance cycles (a successful `submitAnswer`
immediately followed by `advanceToNextQuestion`). -/
inductive ReachablePaired : QuizSession → Prop
  | create (id : String) (now : Int) : ReachablePaired (createNewSession id now)
  | record (s : QuizSession) (i : Nat) (gd : GameData) :
      ReachablePaired s → ReachablePaired (updateSessionGameData s i gd)
  | cycle (s s' : QuizSession) (opt : String) (now maxQuestions now2 : Int) :
      ReachablePaired s → submitAnswer s opt now = .ok s' →
      ReachablePaired (advanceToNextQuestion s' maxQuestions now2)

/-- `CuratedGame` from `src/lib/curated-games-loader.ts`. -/
structure CuratedGame where
  id : Int
  name : String
  year : Int
  release_date : String
  rating : Rat
  cover_url : String
  screenshots : List String
  summary : String
  genres : String
  developers : String
  platforms : String
  deriving Repr, DecidableEq

/-- `GameWithOptions` (the loader's result shape from `src/lib/types`, as
assembled at the end of `getRandomGameWithScreenshot`). -/
structure GameWithOptions where
  game : Game
  screenshot : String
  options : List String
  correctAnswer : String
  deriving Repr, DecidableEq

/-- The two `throw new Error(...)` sites of the loader, as structured
errors. -/
inductive LoaderError where
  | noGamesFound
  | noScreenshots (name : String)
  deriving Repr, DecidableEq

/-- The message string each loader error is thrown with. -/
def loaderErrorMessage : LoaderError → String
  | .noGamesFound => "No games found with the specified criteria"
  | .noScreenshots name => "No screenshots available for " ++ name

/-- `getGamesByYear` from `src/lib/curated-games-loader.ts`, with the
module-level `games` catalog passed explicitly. -/
def getGamesByYear (games : List CuratedGame) (year : Int) : List CuratedGame :=
  games.filter (fun game => game.year == year)

/-- `getHighRatedGames` from `src/lib/curated-games-loader.ts`. -/
def getHighRatedGames (games : List CuratedGame) (minRating : Rat) : List CuratedGame :=
  games.filter (fun game => decide (minRating ≤ game.rating))

/-- `normalizeGenre` from `src/lib/curated-games-loader.ts`: the record
lookup with `|| genre` fallback becomes a chain of equality tests (every
mapped value is a non-empty, hence truthy, string). -/
def normalizeGenre (genre : String) : String :=
  if genre == "Role-playing (RPG)" then "RPG"
  else if genre == "Turn-based strategy (TBS)" then "Strategy"
  else if genre == "Real Time Strategy (RTS)" then "Strategy"
  else if genre == "Hack and slash/Beat \x27em up" then "Action"
  else if genre == "Point-and-click" then "Adventure"
  else if genre == "Visual Novel" then "Adventure"
  else if genre == "Card & Board Game" then "Board"
  else if genre == "Music/Rhythm" then "Music"
  else genre

/-- `getGenreAndYearMatchingGames` from `src/lib/curated-games-loader.ts`.
The string-parsing helper `parseGenres` (regex/JSON cleanup of the serialized
genre blob) is abstracted as the function argument `pg`; every theorem below
holds for an arbitrary `pg`. -/
def getGenreAndYearMatchingGames (pg : String → List String)
    (games : List CuratedGame) (correctGame : CuratedGame)
    (yearRange : Int) (excludeIds : List Int) : List CuratedGame :=
  let targetYear := correctGame.year
  let correctGenres := (pg correctGame.genres).map normalizeGenre
  games.filter (fun game =>
    if excludeIds.contains game.id then false
    else if decide (yearRange < |game.year - targetYear|) then false
    else correctGenres.any (fun genre =>
      ((pg game.genres).map normalizeGenre).contains genre))

/-- The `categoryMap` record of `getBroadCategoryGames`, in insertion order
(the order `Object.entries` iterates). -/
def categoryMap : List (String × List String) :=
  [("Action", ["Platform", "Shooter", "Fighting", "Action", "Arcade"]),
   ("RPG", ["RPG", "Adventure", "Strategy"]),
   ("Strategy", ["Strategy", "Tactical", "Simulator"]),
   ("Adventure", ["Adventure", "Puzzle", "Point-and-click"]),
   ("Sports", ["Sport", "Racing", "Simulator"]),
   ("Arcade", ["Arcade", "Platform", "Shooter", "Action"])]

/-- `getBroadCategoryGames` from `src/lib/curated-games-loader.ts`: the
`for`-loop with `break` picks the first category whose genre list meets the
correct game's normalized genres. -/
def getBroadCategoryGames (pg : String → List String)
    (games : List CuratedGame) (correctGame : CuratedGame)
    (yearRange : Int) : List CuratedGame :=
  let correctGenres := (pg correctGame.genres).map normalizeGenre
  match categoryMap.find? (fun p => correctGenres.any (fun genre => p.2.contains genre)) with
  | none => []
  | some p =>
      let allowedGenres := p.2
      games.filter (fun game =>
        decide (|game.year - correctGame.year| ≤ yearRange) &&
        ((pg game.genres).map normalizeGenre).any (fun genre =>
          allowedGenres.contains genre))

/-- The candidate-pool selection at the top of `getRandomGameWithScreenshot`:
the target-year pool, replaced when it has fewer than 4 entries by the
rating-82 pool, and when that still has fewer than 4 entries by the rating-80
pool. -/
def selectPool (games : List CuratedGame) (randomYear : Int) : List CuratedGame :=
  let yearGames := getGamesByYear games randomYear
  if yearGames.length < 4 then
    let highRated := getHighRatedGames games 82
    if highRated.length < 4 then getHighRatedGames games 80 else highRated
  else yearGames

/-- Phases 1 to 3 of decoy construction in `getRandomGameWithScreenshot`
(exact genre+year matches, broad-category matches, year-only matches), with
the comparator shuffles abstracted as `σ1`, `σ2`, `σ3`. -/
def decoysUpTo3 (pg : String → List String) (games : List CuratedGame)
    (correctGame : CuratedGame)
    (σ1 σ2 σ3 : List CuratedGame → List CuratedGame) : List CuratedGame :=
  let other1 :=
    (σ1 (getGenreAndYearMatchingGames pg games correctGame 3 [correctGame.id])).take 3
  let other2 :=
    if other1.length < 3 then
      other1 ++ (σ2 ((getBroadCategoryGames pg games correctGame 5).filter
        (fun g => g.id != correctGame.id &&
          !(other1.any (fun og => og.id == g.id))))).take (3 - other1.length)
    else other1
  if other2.length < 3 then
    other2 ++ (σ3 (games.filter
      (fun g => decide (|g.year - correctGame.year| ≤ 10) &&
        g.id != correctGame.id &&
        !(other2.any (fun og => og.id == g.id))))).take (3 - other2.length)
  else other2

/-- All four decoy phases: phases 1-3 followed by the phase-4 global
fallback drawing from `getHighRatedGames games 78`. -/
def buildDecoys (pg : String → List String) (games : List CuratedGame)
    (correctGame : CuratedGame)
    (σ1 σ2 σ3 σ4 : List CuratedGame → List CuratedGame) : List CuratedGame :=
  let other3 := decoysUpTo3 pg games correctGame σ1 σ2 σ3
  if other3.length < 3 then
    other3 ++ (σ4 ((getHighRatedGames games 78).filter
      (fun g => g.id != correctGame.id &&
        !(other3.any (fun og => og.id == g.id))))).take (3 - other3.length)
  else other3

/-- Whether a character matches `[a-z0-9]` (the class kept by the slug
regex). -/
def slugChar (c : Char) : Bool :=
  (decide ('a' ≤ c) && decide (c ≤ 'z')) || (decide ('0' ≤ c) && decide (c ≤ '9'))

/-- `replace(/[^a-z0-9]+/g, '-')` on a character list: each maximal run of
non-matching characters becomes a single dash.  The flag `inRun` records
whether the previous character was part of a replaced run. -/
def slugReplace : List Char → Bool → List Char
  | [], _ => []
  | c :: rest, inRun =>
    if slugChar c then c :: slugReplace rest false
    else if inRun then slugReplace rest true
    else '-' :: slugReplace rest true

/-- ASCII lower-casing of one character, as `toLowerCase` acts on the
letters the slug regex can keep. -/
def lowerChar (c : Char) : Char :=
  if 'A' ≤ c ∧ c ≤ 'Z' then Char.ofNat (c.toNat + 32) else c

/-- The slug construction `name.toLowerCase().replace(/[^a-z0-9]+/g, '-')`. -/
def slugify (s : String) : String :=
  ⟨slugReplace (s.toList.map lowerChar) false⟩

/-- `Math.floor(Math.random() * (2024 - 1980 + 1)) + 1980` with the random
draw `yearRand` passed explicitly. -/
def randomYearOf (yearRand : Nat) : Int :=
  1980 + (yearRand % (2024 - 1980 + 1) : Nat)

/-- The invariant maintained by the decoy phases: the gathered decoys are
pairwise distinct catalog entries, none of which is (by id) the correct
game. -/
def DecoyOK (games : List CuratedGame) (c : CuratedGame)
    (other : List CuratedGame) : Prop :=
  other.Nodup ∧ ∀ g ∈ other, g ∈ games ∧ g.id ≠ c.id

/-- `getRandomGameWithScreenshot` from `src/lib/curated-games-loader.ts`.
Randomness is passed explicitly: `yearRand` determines the uniform year in
1980-2024, `pickRand`/`shotRand` the uniform picks of the correct game and of
its screenshot (as `n % length`), and `σ1 σ2 σ3 σ4 σopt` the comparator-based
shuffles (arbitrary permutations) of the four decoy pools and of the final
option list. -/
def getRandomGameWithScreenshot (games : List CuratedGame)
    (pg : String → List String) (yearRand pickRand shotRand : Nat)
    (σ1 σ2 σ3 σ4 : List CuratedGame → List CuratedGame)
    (σopt : List String → List String) : Except LoaderError GameWithOptions :=
  let randomYear : Int := randomYearOf yearRand
  let yearGames := selectPool games randomYear
  if hpool : yearGames.length = 0 then .error .noGamesFound
  else
    let correctGame := yearGames.get
      ⟨pickRand % yearGames.length, Nat.mod_lt _ (Nat.pos_of_ne_zero hpool)⟩
    if hshot : correctGame.screenshots.length = 0 then
      .error (.noScreenshots correctGame.name)
    else
      let screenshot := correctGame.screenshots.get
        ⟨shotRand % correctGame.screenshots.length,
         Nat.mod_lt _ (Nat.pos_of_ne_zero hshot)⟩
      let otherGames := buildDecoys pg games correctGame σ1 σ2 σ3 σ4
      let allOptions := σopt (correctGame.name :: otherGames.map (fun g => g.name))
      .ok { game :=
              { id := correctGame.id
                name := correctGame.name
                background_image := correctGame.cover_url
                slug := slugify correctGame.name }
            screenshot := screenshot
            options := allOptions
            correctAnswer := correctGame.name }

/-! Concrete values used by the closed instance theorems below. -/

/-- A concrete round-content record for round 1. -/
def gdAlpha : GameData :=
  { game := { id := 1, name := "Alpha", background_image := "", slug := "alpha" }
    screenshot := "shot"
    options := ["Alpha", "Beta"]
    correctAnswer := "Alpha" }

/-- A fresh session with round-1 content recorded. -/
def sessionReady : QuizSession :=
  updateSessionGameData (createNewSession "sid" 0) 0 gdAlpha

/-- The result of submitting the correct answer on `sessionReady`
(at `now = 1`). -/
def submittedOnce : QuizSession :=
  { id := "sid"
    startedAt := 0
    currentQuestion := 1
    score := 1
    answers :=
      [{ questionIndex := 0, selectedOption := "Alpha", correctAnswer := "Alpha",
         isCorrect := true, answeredAt := 1 }]
    gameData := [gdAlpha]
    isComplete := false
    completedAt := none }

/-- A structurally well-formed-looking session whose cursor is ahead of its
empty answer log (`currentQuestion = 3`, `answers = []`). -/
def skewedSession : QuizSession :=
  { id := "sid"
    startedAt := 1
    currentQuestion := 3
    score := 0
    answers := []
    gameData := []
    isComplete := false
    completedAt := none }

/-- A session whose third answer is labelled with `questionIndex = 5`. -/
def outOfOrderSession : QuizSession :=
  { id := "sid"
    startedAt := 1
    currentQuestion := 4
    score := 0
    answers :=
      [{ questionIndex := 0, selectedOption := "a", correctAnswer := "a",
         isCorrect := true, answeredAt := 2 },
       { questionIndex := 1, selectedOption := "b", correctAnswer := "a",
         isCorrect := false, answeredAt := 3 },
       { questionIndex := 5, selectedOption := "c", correctAnswer := "c",
         isCorrect := true, answeredAt := 4 }]
    gameData := []
    isComplete := false
    completedAt := none }

/-- A session that satisfies every integrity check at `now = 10`. -/
def coherentSession : QuizSession :=
  { id := "sid"
    startedAt := 1
    currentQuestion := 2
    score := 1
    answers :=
      [{ questionIndex := 0, selectedOption := "Alpha", correctAnswer := "Alpha",
         isCorrect := true, answeredAt := 2 }]
    gameData := [gdAlpha]
    isComplete := false
    completedAt := none }

/-- A session whose current question (round 1) already has a recorded
answer. -/
def answeredOnceSession : QuizSession :=
  { id := "sid"
    startedAt := 1
    currentQuestion := 1
    score := 1
    answers :=
      [{ questionIndex := 0, selectedOption := "Alpha", correctAnswer := "Alpha",
         isCorrect := true, answeredAt := 2 }]
    gameData := [gdAlpha]
    isComplete := false
    completedAt := none }

/-- The result of re-submitting the correct answer on `answeredOnceSession`
(at `now = 3`): a duplicate answer record and a double-counted score. -/
def submittedTwice : QuizSession :=
  { id := "sid"
    startedAt := 1
    currentQuestion := 1
    score := 2
    answers :=
      [{ questionIndex := 0, selectedOption := "Alpha", correctAnswer := "Alpha",
         isCorrect := true, answeredAt := 2 },
       { questionIndex := 0, selectedOption := "Alpha", correctAnswer := "Alpha",
         isCorrect := true, answeredAt := 3 }]
    gameData := [gdAlpha]
    isComplete := false
    completedAt := none }

/-- Catalog entry builder: only the fields the loader logic reads vary. -/
def mkEntry (id : Int) (name : String) (year : Int) (rating : Rat)
    (screenshots : List String) : CuratedGame :=
  { id := id
    name := name
    year := year
    release_date := ""
    rating := rating
    cover_url := ""
    screenshots := screenshots
    summary := ""
    genres := ""
    developers := ""
    platforms := "" }

/-- A well-rated year-2000 entry. -/
def entryAlpha : CuratedGame := mkEntry 1 "Alpha" 2000 90 ["sa"]

/-- A 1950 entry rated 78: below 80, at the phase-4 fallback threshold. -/
def entryBeta : CuratedGame := mkEntry 2 "Beta" 1950 78 []

/-- One-entry catalog. -/
def catalogSingle : List CuratedGame := [entryAlpha]

/-- Two-entry catalog whose only possible decoy is rated 78. -/
def catalogLowRated : List CuratedGame := [entryAlpha, entryBeta]

/-- Catalog with exactly three year-2005 entries, one of them rated 80. -/
def catalogSparse2005 : List CuratedGame :=
  [mkEntry 1 "Aster" 2005 50 ["s1"],
   mkEntry 2 "Burrow" 2005 60 ["s2"],
   mkEntry 3 "Cinder" 2005 80 ["s3"]]

/-- The round content produced from `catalogSingle` with identity shuffles
and draws 20/0/0. -/
def singleRound : GameWithOptions :=
  { game := { id := 1, name := "Alpha", background_image := "", slug := "alpha" }
    screenshot := "sa"
    options := ["Alpha"]
    correctAnswer := "Alpha" }

/-! Shared lemmas about the session operations. -/

theorem submitAnswer_ok_of_gameData (s : QuizSession) (opt : String) (now : Int)
    (gd : GameData) (h : jsGet s.gameData (s.currentQuestion - 1) = some gd) :
    submitAnswer s opt now = .ok { s with
      score := if opt == gd.correctAnswer then s.score + 1 else s.score
      answers := s.answers ++
        [{ questionIndex := s.currentQuestion - 1, selectedOption := opt,
           correctAnswer := gd.correctAnswer, isCorrect := opt == gd.correctAnswer,
           answeredAt := now }] } := by
  simp only [submitAnswer, h]

theorem submitAnswer_error_of_no_gameData (s : QuizSession) (opt : String) (now : Int)
    (h : jsGet s.gameData (s.currentQuestion - 1) = none) :
    submitAnswer s opt now = .error "No game data found for current question" := by
  simp only [submitAnswer, h]

theorem submitAnswer_ok_fields (s s' : QuizSession) (opt : String) (now : Int)
    (h : submitAnswer s opt now = .ok s') :
    s'.currentQuestion = s.currentQuestion ∧
    s'.answers.length = s.answers.length + 1 := by
  cases hgd : jsGet s.gameData (s.currentQuestion - 1) with
  | none =>
      rw [submitAnswer_error_of_no_gameData s opt now hgd] at h
      exact absurd h (by simp)
  | some gd =>
      rw [submitAnswer_ok_of_gameData s opt now gd hgd] at h
      cases Except.ok.inj h
      simp

theorem advanceToNextQuestion_fields (s : QuizSession) (mq now : Int) :
    (advanceToNextQuestion s mq now).currentQuestion = s.currentQuestion + 1 ∧
    (advanceToNextQuestion s mq now).answers = s.answers := by
  simp only [advanceToNextQuestion]
  split <;> simp

theorem answersOrdered_iff (l : List QuizAnswer) (k : Int) :
    answersOrdered l k = true ↔
      ∀ (i : Nat) (hi : i < l.length), (l.get ⟨i, hi⟩).questionIndex = k + i := by
  induction l generalizing k with
  | nil => simp [answersOrdered]
  | cons a rest ih =>
      simp only [answersOrdered, Bool.and_eq_true, beq_iff_eq, ih (k + 1),
        List.length_cons]
      constructor
      · rintro ⟨h0, hr⟩ i hi
        cases i with
        | zero => simpa using h0
        | succ j =>
            have hj : j < rest.length := Nat.lt_of_succ_lt_succ hi
            have hv := hr j hj
            have hget : (a :: rest).get ⟨j + 1, hi⟩ = rest.get ⟨j, hj⟩ := rfl
            rw [hget, hv]
            push_cast
            ring
      · intro h
        refine ⟨?_, fun j hj => ?_⟩
        · have h0 := h 0 (Nat.succ_pos _)
          simpa using h0
        · have h1 : j + 1 < rest.length + 1 := Nat.succ_lt_succ hj
          have hv := h (j + 1) h1
          have hget : (a :: rest).get ⟨j + 1, h1⟩ = rest.get ⟨j, hj⟩ := rfl
          rw [hget] at hv
          rw [hv]
          push_cast
          ring

theorem validateQuizIntegrity_true_iff (s : QuizSession) (now : Int) :
    validateQuizIntegrity s now = true ↔
      (s.id ≠ "" ∧ s.startedAt ≠ 0 ∧
       (∀ (i : Nat) (hi : i < s.answers.length),
          (s.answers.get ⟨i, hi⟩).questionIndex = (i : Int)) ∧
       s.currentQuestion = (s.answers.length : Int) + 1 ∧
       s.startedAt ≤ now ∧
       ∀ a ∈ s.answers, s.startedAt ≤ a.answeredAt ∧ a.answeredAt ≤ now) := by
  have hord : answersOrdered s.answers 0 = true ↔
      ∀ (i : Nat) (hi : i < s.answers.length),
        (s.answers.get ⟨i, hi⟩).questionIndex = (i : Int) := by
    rw [answersOrdered_iff]
    constructor
    · intro h i hi; have := h i hi; omega
    · intro h i hi; have := h i hi; omega
  unfold validateQuizIntegrity
  split_ifs with h1 h2 h3 h4 h5
  · simp only [Bool.or_eq_true, beq_iff_eq] at h1
    simp only [false_iff]
    rintro ⟨hid, hst, -⟩
    rcases h1 with h | h
    · exact hid h
    · exact hst h
  · rw [Bool.not_eq_true'] at h2
    simp only [false_iff]
    rintro ⟨-, -, hrhs, -⟩
    rw [hord.mpr hrhs] at h2
    exact absurd h2 (by simp)
  · simp only [bne_iff_ne, ne_eq] at h3
    simp only [false_iff]
    rintro ⟨-, -, -, hcur, -⟩
    exact h3 hcur
  · simp only [decide_eq_true_eq] at h4
    simp only [false_iff]
    rintro ⟨-, -, -, -, hle, -⟩
    omega
  · simp only [List.any_eq_true, Bool.or_eq_true, decide_eq_true_eq] at h5
    simp only [false_iff]
    rintro ⟨-, -, -, -, -, hts⟩
    obtain ⟨a, ha, hbad⟩ := h5
    have := hts a ha
    rcases hbad with h | h <;> omega
  · simp only [Bool.or_eq_true, beq_iff_eq, not_or] at h1
    have h2' : answersOrdered s.answers 0 = true := by
      revert h2
      cases answersOrdered s.answers 0 <;> simp
    simp only [bne_iff_ne, ne_eq, not_not] at h3
    simp only [decide_eq_true_eq, not_lt] at h4
    simp only [List.any_eq_true, Bool.or_eq_true, decide_eq_true_eq] at h5
    push_neg at h5
    simp only [true_iff]
    refine ⟨h1.1, h1.2, hord.mp h2', h3, h4, fun a ha => ?_⟩
    have := h5 a ha
    omega

/-! Claim C1. -/

/-- C1 counterexample: the invariant `currentQuestion == answers.length + 1`
does not hold after every individual `submitAnswer` call: on a fresh session
with round-1 content recorded, a successful `submitAnswer` yields a session
with `currentQuestion = 1` but `answers.length + 1 = 2`. -/
theorem cursorInvariant_fails_after_submit :
    submitAnswer sessionReady "Alpha" 1 = .ok submittedOnce ∧
    ¬ cursorInvariant submittedOnce :=
  ⟨rfl, by decide⟩

/-- C1 (amended): after `createNewSession`, after `updateSessionGameData`, and
after every complete submit-then-advance cycle the invariant
`currentQuestion == answers.length + 1` holds; after a lone successful
`submitAnswer` from an invariant-satisfying session, `currentQuestion`
instead equals `answers.length`. -/
theorem cursorInvariant_after_cycles :
    (∀ s, ReachablePaired s → cursorInvariant s) ∧
    (∀ (s : QuizSession) (opt : String) (now : Int) (s' : QuizSession),
      cursorInvariant s → submitAnswer s opt now = .ok s' →
      s'.currentQuestion = (s'.answers.length : Int)) := by
  constructor
  · intro s h
    induction h with
    | create id now => simp [cursorInvariant, createNewSession]
    | record s i gd _ ih =>
        simpa [cursorInvariant, updateSessionGameData] using ih
    | cycle s s' opt now mq now2 _ hsub ih =>
        obtain ⟨hc, hl⟩ := submitAnswer_ok_fields s s' opt now hsub
        obtain ⟨hc2, ha2⟩ := advanceToNextQuestion_fields s' mq now2
        unfold cursorInvariant at ih ⊢
        rw [hc2, ha2, hc, hl]
        push_cast
        omega
  · intro s opt now s' hinv hsub
    obtain ⟨hc, hl⟩ := submitAnswer_ok_fields s s' opt now hsub
    unfold cursorInvariant at hinv
    rw [hc, hl]
    push_cast
    omega

/-- C1 witness: a concrete create, record, submit, advance run ends in a
session satisfying the invariant. -/
theorem cursorInvariant_after_cycles_witness :
    cursorInvariant (advanceToNextQuestion submittedOnce 10 2) :=
  cursorInvariant_after_cycles.1 _
    (ReachablePaired.cycle sessionReady submittedOnce "Alpha" 1 10 2
      (ReachablePaired.record (createNewSession "sid" 0) 0 gdAlpha
        (ReachablePaired.create "sid" 0))
      rfl)

/-! Claim C2. -/

/-- C2: `submitAnswer` fails exactly when the game data at index
`currentQuestion - 1` is absent; otherwise it appends one answer labelled
with `questionIndex = currentQuestion - 1` and correctness
`selectedOption == correctAnswer`, incrementing the score exactly when the
selected option is correct. -/
theorem submitAnswer_spec (s : QuizSession) (opt : String) (now : Int) :
    ((∃ e, submitAnswer s opt now = .error e) ↔
      jsGet s.gameData (s.currentQuestion - 1) = none) ∧
    (∀ gd, jsGet s.gameData (s.currentQuestion - 1) = some gd →
      submitAnswer s opt now = .ok { s with
        score := if opt = gd.correctAnswer then s.score + 1 else s.score
        answers := s.answers ++
          [{ questionIndex := s.currentQuestion - 1, selectedOption := opt,
             correctAnswer := gd.correctAnswer, isCorrect := opt == gd.correctAnswer,
             answeredAt := now }] }) := by
  constructor
  · constructor
    · rintro ⟨e, he⟩
      cases hgd : jsGet s.gameData (s.currentQuestion - 1) with
      | none => rfl
      | some gd =>
          rw [submitAnswer_ok_of_gameData s opt now gd hgd] at he
          exact absurd he (by simp)
    · intro h
      exact ⟨_, submitAnswer_error_of_no_gameData s opt now h⟩
  · intro gd h
    rw [submitAnswer_ok_of_gameData s opt now gd h]
    by_cases hc : opt = gd.correctAnswer <;> simp [hc]

/-- C2 witness: submitting the correct option on a prepared concrete session
returns the described updated session. -/
theorem submitAnswer_spec_witness :
    submitAnswer sessionReady "Alpha" 1 = .ok { sessionReady with
      score := if "Alpha" = gdAlpha.correctAnswer
               then sessionReady.score + 1 else sessionReady.score
      answers := sessionReady.answers ++
        [{ questionIndex := sessionReady.currentQuestion - 1,
           selectedOption := "Alpha", correctAnswer := gdAlpha.correctAnswer,
           isCorrect := ("Alpha" == gdAlpha.correctAnswer), answeredAt := 1 }] } :=
  (submitAnswer_spec sessionReady "Alpha" 1).2 gdAlpha rfl

/-! Claim C3. -/

/-- C3 counterexample: `loadSession` returns (rather than rejects) a parsed
session that fails `validateQuizIntegrity` (here: `currentQuestion = 3` with
an empty answer log). -/
theorem loadSession_counterexample :
    loadSession (.parsed skewedSession) = some skewedSession ∧
    validateQuizIntegrity skewedSession 10 = false :=
  ⟨rfl, by decide⟩

/-- C3 (amended): `loadSession` never raises and fails closed for a missing
or malformed blob, but on a parsed session it applies only the basic checks
(truthy `id`, truthy `startedAt`, `currentQuestion ≥ 1`), not the full
`validateQuizIntegrity`. -/
theorem loadSession_spec (b : StoredBlob) (s : QuizSession) :
    loadSession b = some s ↔
      b = .parsed s ∧ s.id ≠ "" ∧ s.startedAt ≠ 0 ∧ 1 ≤ s.currentQuestion := by
  cases b with
  | missing => simp [loadSession]
  | malformed => simp [loadSession]
  | parsed s0 =>
      simp only [loadSession]
      split_ifs with h
      · simp only [Bool.or_eq_true, beq_iff_eq, decide_eq_true_eq] at h
        constructor
        · intro hh; exact absurd hh (by simp)
        · rintro ⟨heq, hid, hst, hcur⟩
          cases StoredBlob.parsed.inj heq
          rcases h with (h | h) | h
          · exact absurd h hid
          · exact absurd h hst
          · omega
      · simp only [Bool.or_eq_true, beq_iff_eq, decide_eq_true_eq] at h
        push_neg at h
        obtain ⟨⟨hid, hst⟩, hcur⟩ := h
        constructor
        · intro hh
          cases Option.some.inj hh
          exact ⟨rfl, hid, hst, by omega⟩
        · rintro ⟨heq, -⟩
          cases StoredBlob.parsed.inj heq
          rfl

/-- C3 witness: a parsed session passing the basic checks is returned. -/
theorem loadSession_spec_witness :
    loadSession (.parsed coherentSession) = some coherentSession :=
  (loadSession_spec (.parsed coherentSession) coherentSession).mpr
    ⟨rfl, by decide, by decide, by decide⟩

/-! Claim C4. -/

/-- C4: `validateQuizIntegrity` returns true exactly when the id and start
timestamp are truthy, every answer is labelled with its own position, the
cursor is one past the answer log, the start is not in the future, and every
answer timestamp lies between the start and now; in particular it rejects a
session whose third answer is labelled 5 and a session with
`currentQuestion = 3` but no answers. -/
theorem validateQuizIntegrity_spec :
    (∀ (s : QuizSession) (now : Int),
      validateQuizIntegrity s now = true ↔
        (s.id ≠ "" ∧ s.startedAt ≠ 0 ∧
         (∀ (i : Nat) (hi : i < s.answers.length),
            (s.answers.get ⟨i, hi⟩).questionIndex = (i : Int)) ∧
         s.currentQuestion = (s.answers.length : Int) + 1 ∧
         s.startedAt ≤ now ∧
         ∀ a ∈ s.answers, s.startedAt ≤ a.answeredAt ∧ a.answeredAt ≤ now)) ∧
    validateQuizIntegrity outOfOrderSession 10 = false ∧
    validateQuizIntegrity skewedSession 10 = false :=
  ⟨validateQuizIntegrity_true_iff, by decide, by decide⟩

/-- C4 witness: a coherent concrete session is accepted. -/
theorem validateQuizIntegrity_spec_witness :
    validateQuizIntegrity coherentSession 10 = true :=
  (validateQuizIntegrity_spec.1 coherentSession 10).mpr (by decide)

/-! Claim C5. -/

/-- C5 counterexample: a second `advanceToNextQuestion` call on an
already-complete session overwrites `completedAt` (100 becomes 200), so
`completedAt` is not set exactly once. -/
theorem advance_restamps_completedAt :
    (advanceToNextQuestion (createNewSession "sid" 1) 0 100).isComplete = true ∧
    (advanceToNextQuestion (createNewSession "sid" 1) 0 100).completedAt = some 100 ∧
    (advanceToNextQuestion
      (advanceToNextQuestion (createNewSession "sid" 1) 0 100) 0 200).completedAt
      = some 200 ∧
    some (200 : Int) ≠ some (100 : Int) := by
  refine ⟨by decide, by decide, by decide, by decide⟩

/-- C5 (amended): `advanceToNextQuestion` increments `currentQuestion`, and
sets `isComplete` and stamps `completedAt := now` exactly when the
incremented value exceeds `maxQuestions` — on every such call, including
calls on an already-complete session, which therefore re-stamp
`completedAt`. -/
theorem advanceToNextQuestion_spec (s : QuizSession) (mq now : Int) :
    (advanceToNextQuestion s mq now).currentQuestion = s.currentQuestion + 1 ∧
    (mq < s.currentQuestion + 1 →
      (advanceToNextQuestion s mq now).isComplete = true ∧
      (advanceToNextQuestion s mq now).completedAt = some now) ∧
    (¬ mq < s.currentQuestion + 1 →
      (advanceToNextQuestion s mq now).isComplete = s.isComplete ∧
      (advanceToNextQuestion s mq now).completedAt = s.completedAt) := by
  by_cases h : mq < s.currentQuestion + 1 <;>
    simp [advanceToNextQuestion, gt_iff_lt, h]

/-- C5 witness: advancing a fresh session past `maxQuestions = 0` completes
it and stamps the completion time. -/
theorem advanceToNextQuestion_spec_witness :
    (advanceToNextQuestion (createNewSession "sid" 1) 0 100).isComplete = true ∧
    (advanceToNextQuestion (createNewSession "sid" 1) 0 100).completedAt = some 100 :=
  (advanceToNextQuestion_spec (createNewSession "sid" 1) 0 100).2.1 (by decide)

/-! Claim C9. -/

/-- C9: `updateSessionGameData` is idempotent: repeating the call with the
same session, index and content returns the same session in all fields. -/
theorem updateSessionGameData_idempotent (s : QuizSession) (i : Nat) (gd : GameData) :
    updateSessionGameData (updateSessionGameData s i gd) i gd =
      updateSessionGameData s i gd := by
  simp only [updateSessionGameData]
  have hlen : ((s.gameData ++ List.replicate (i + 1 - s.gameData.length) gd).set i gd).length
      = s.gameData.length + (i + 1 - s.gameData.length) := by
    simp [List.length_set, List.length_append, List.length_replicate]
  have h0 : i + 1 -
      ((s.gameData ++ List.replicate (i + 1 - s.gameData.length) gd).set i gd).length = 0 := by
    omega
  rw [h0]
  simp [List.set_set]

/-! Claim C10. -/

/-- C10: `submitAnswer` has no re-submission guard: if the current question
already has a matching answer, a second `submitAnswer` still appends another
answer with the same `questionIndex`, still increments the score when the
option is correct, and the result fails `validateQuizIntegrity`. -/
theorem submitAnswer_no_resubmission_guard (s : QuizSession) (opt : String)
    (now now2 : Int) (gd : GameData)
    (hgd : jsGet s.gameData (s.currentQuestion - 1) = some gd)
    (hdup : ∃ a ∈ s.answers, a.questionIndex = s.currentQuestion - 1) :
    ∀ s', submitAnswer s opt now = .ok s' →
      s'.answers = s.answers ++
        [{ questionIndex := s.currentQuestion - 1, selectedOption := opt,
           correctAnswer := gd.correctAnswer, isCorrect := opt == gd.correctAnswer,
           answeredAt := now }] ∧
      (opt = gd.correctAnswer → s'.score = s.score + 1) ∧
      validateQuizIntegrity s' now2 = false := by
  intro s' hok
  rw [submitAnswer_ok_of_gameData s opt now gd hgd] at hok
  cases Except.ok.inj hok
  refine ⟨rfl, fun hc => by simp [hc], ?_⟩
  rw [Bool.eq_false_iff]
  intro hv
  rw [validateQuizIntegrity_true_iff] at hv
  obtain ⟨-, -, hordp, hcur, -, -⟩ := hv
  obtain ⟨a, ha, haq⟩ := hdup
  obtain ⟨⟨j, hjn⟩, hj⟩ := List.mem_iff_get.mp ha
  simp only [List.length_append, List.length_cons, List.length_nil] at hordp hcur
  have hjlt : j < s.answers.length + 1 := by omega
  have h1 := hordp j hjlt
  have hget : (s.answers ++
      [({ questionIndex := s.currentQuestion - 1, selectedOption := opt,
          correctAnswer := gd.correctAnswer, isCorrect := opt == gd.correctAnswer,
          answeredAt := now } : QuizAnswer)]).get ⟨j, by simpa using hjlt⟩ =
      s.answers.get ⟨j, hjn⟩ := by
    simp only [List.get_eq_getElem]
    exact List.getElem_append_left hjn
  rw [hget, hj] at h1
  omega

/-- C10 witness: re-submitting on a concrete already-answered session yields
a double-counted score and a session rejected by `validateQuizIntegrity`. -/
theorem submitAnswer_no_resubmission_guard_witness :
    validateQuizIntegrity submittedTwice 5 = false ∧
    submittedTwice.score = answeredOnceSession.score + 1 :=
  ⟨(submitAnswer_no_resubmission_guard answeredOnceSession "Alpha" 3 5 gdAlpha
      rfl (by decide) submittedTwice rfl).2.2,
   (submitAnswer_no_resubmission_guard answeredOnceSession "Alpha" 3 5 gdAlpha
      rfl (by decide) submittedTwice rfl).2.1 rfl⟩

/-! Shared lemmas about the loader. -/

theorem mem_getGamesByYear {games : List CuratedGame} {y : Int} {g : CuratedGame}
    (h : g ∈ getGamesByYear games y) : g ∈ games :=
  (List.mem_filter.mp h).1

theorem mem_getHighRatedGames {games : List CuratedGame} {r : Rat} {g : CuratedGame}
    (h : g ∈ getHighRatedGames games r) : g ∈ games ∧ r ≤ g.rating := by
  have h' := List.mem_filter.mp h
  exact ⟨h'.1, by simpa using h'.2⟩

theorem getHighRatedGames_mem_of {games : List CuratedGame} {r : Rat} {g : CuratedGame}
    (hg : g ∈ games) (hr : r ≤ g.rating) : g ∈ getHighRatedGames games r := by
  exact List.mem_filter.mpr ⟨hg, by simpa using hr⟩

theorem getHighRatedGames_nodup {games : List CuratedGame} {r : Rat}
    (h : games.Nodup) : (getHighRatedGames games r).Nodup :=
  h.filter _

theorem mem_getGenreAndYearMatchingGames {pg : String → List String}
    {games : List CuratedGame} {c : CuratedGame} {yr : Int} {ex : List Int}
    {g : CuratedGame} (h : g ∈ getGenreAndYearMatchingGames pg games c yr ex) :
    g ∈ games ∧ g.id ∉ ex := by
  have h' := List.mem_filter.mp h
  refine ⟨h'.1, ?_⟩
  have hp := h'.2
  cases hc : ex.contains g.id with
  | false => simpa using hc
  | true => rw [hc] at hp; simp at hp

theorem getGenreAndYearMatchingGames_nodup {pg : String → List String}
    {games : List CuratedGame} {c : CuratedGame} {yr : Int} {ex : List Int}
    (h : games.Nodup) : (getGenreAndYearMatchingGames pg games c yr ex).Nodup :=
  h.filter _

theorem mem_getBroadCategoryGames {pg : String → List String}
    {games : List CuratedGame} {c : CuratedGame} {yr : Int} {g : CuratedGame}
    (h : g ∈ getBroadCategoryGames pg games c yr) : g ∈ games := by
  simp only [getBroadCategoryGames] at h
  split at h
  · simp at h
  · exact (List.mem_filter.mp h).1

theorem getBroadCategoryGames_nodup {pg : String → List String}
    {games : List CuratedGame} {c : CuratedGame} {yr : Int}
    (h : games.Nodup) : (getBroadCategoryGames pg games c yr).Nodup := by
  simp only [getBroadCategoryGames]
  split
  · simp
  · exact h.filter _

theorem mem_selectPool {games : List CuratedGame} {y : Int} {g : CuratedGame}
    (h : g ∈ selectPool games y) : g ∈ games := by
  simp only [selectPool] at h
  split_ifs at h
  · exact (mem_getHighRatedGames h).1
  · exact (mem_getHighRatedGames h).1
  · exact mem_getGamesByYear h

/-- A shuffled-then-truncated chunk of a duplicate-free pool is itself
duplicate-free and drawn from the pool. -/
theorem chunk_facts {σ : List CuratedGame → List CuratedGame}
    (hσ : ∀ l, (σ l).Perm l) (l : List CuratedGame) (hl : l.Nodup) (k : Nat) :
    ((σ l).take k).Nodup ∧ ∀ g ∈ (σ l).take k, g ∈ l := by
  constructor
  · exact (List.take_sublist k (σ l)).nodup ((hσ l).nodup_iff.mpr hl)
  · intro g hg
    exact (hσ l).mem_iff.mp (List.mem_of_mem_take hg)

/-- Appending a chunk whose members are fresh (by id) preserves `DecoyOK`. -/
theorem decoyOK_append {games : List CuratedGame} {c : CuratedGame}
    {other : List CuratedGame} (hOK : DecoyOK games c other)
    {chunk : List CuratedGame} (hnd : chunk.Nodup)
    (hmem : ∀ g ∈ chunk, g ∈ games ∧ g.id ≠ c.id ∧ ∀ og ∈ other, og.id ≠ g.id) :
    DecoyOK games c (other ++ chunk) := by
  obtain ⟨hond, homem⟩ := hOK
  constructor
  · rw [List.nodup_append]
    refine ⟨hond, hnd, ?_⟩
    intro g hg1 hg2
    exact (hmem g hg2).2.2 g hg1 rfl
  · intro g hg
    rcases List.mem_append.mp hg with h | h
    · exact homem g h
    · exact ⟨(hmem g h).1, (hmem g h).2.1⟩

/-- The phase-2/3/4 exclusion predicate, read back as propositions. -/
theorem exclusion_pred_facts {c : CuratedGame} {other : List CuratedGame}
    {g : CuratedGame}
    (h : (g.id != c.id && !(other.any (fun og => og.id == g.id))) = true) :
    g.id ≠ c.id ∧ ∀ og ∈ other, og.id ≠ g.id := by
  rw [Bool.and_eq_true] at h
  refine ⟨bne_iff_ne.mp h.1, ?_⟩
  have h2 : other.any (fun og => og.id == g.id) = false := by
    have := h.2
    cases hx : other.any (fun og => og.id == g.id) with
    | false => rfl
    | true => rw [hx] at this; simp at this
  intro og hog
  rw [List.any_eq_false] at h2
  exact beq_eq_false_iff_ne.mp (Bool.not_eq_true _ ▸ (Bool.eq_false_iff.mp (by
    have := h2 og hog
    cases hy : og.id == g.id with
    | false => rfl
    | true => rw [hy] at this; simp at this)))

theorem not_any_id_facts {other : List CuratedGame} {g : CuratedGame}
    (h : (!(other.any (fun og => og.id == g.id))) = true) :
    ∀ og ∈ other, og.id ≠ g.id := by
  rw [Bool.not_eq_true'] at h
  rw [List.any_eq_false] at h
  intro og hog
  have hx := h og hog
  cases hy : og.id == g.id with
  | false => exact beq_eq_false_iff_ne.mp hy
  | true => rw [hy] at hx; simp at hx

/-- One decoy phase: filtering a duplicate-free sub-catalog through the
id-exclusion predicate, shuffling, truncating and appending preserves
`DecoyOK`. -/
theorem phase_append_ok {games : List CuratedGame} {c : CuratedGame}
    {other : List CuratedGame} (hOK : DecoyOK games c other)
    (σ : List CuratedGame → List CuratedGame) (hσ : ∀ l, (σ l).Perm l)
    (src : List CuratedGame) (p : CuratedGame → Bool)
    (hsub : ∀ g ∈ src, g ∈ games) (hnd : src.Nodup)
    (hp : ∀ g, p g = true → g.id ≠ c.id ∧ ∀ og ∈ other, og.id ≠ g.id) (k : Nat) :
    DecoyOK games c (other ++ (σ (src.filter p)).take k) := by
  obtain ⟨hcnd, hcm⟩ := chunk_facts hσ (src.filter p) (hnd.filter p) k
  refine decoyOK_append hOK hcnd ?_
  intro g hg
  obtain ⟨hm, hpg⟩ := List.mem_filter.mp (hcm g hg)
  obtain ⟨hne, hfresh⟩ := hp g hpg
  exact ⟨hsub g hm, hne, hfresh⟩

theorem decoysUpTo3_ok (pg : String → List String) (games : List CuratedGame)
    (c : CuratedGame) (σ1 σ2 σ3 : List CuratedGame → List CuratedGame)
    (h1 : ∀ l, (σ1 l).Perm l) (h2 : ∀ l, (σ2 l).Perm l) (h3 : ∀ l, (σ3 l).Perm l)
    (hnd : games.Nodup) :
    DecoyOK games c (decoysUpTo3 pg games c σ1 σ2 σ3) := by
  simp only [decoysUpTo3]
  set o1 := (σ1 (getGenreAndYearMatchingGames pg games c 3 [c.id])).take 3 with ho1
  have hOK1 : DecoyOK games c o1 := by
    obtain ⟨hndc, hmemc⟩ :=
      chunk_facts h1 _ (getGenreAndYearMatchingGames_nodup hnd) 3
    refine ⟨hndc, fun g hg => ?_⟩
    obtain ⟨hmg, hid⟩ := mem_getGenreAndYearMatchingGames (hmemc g hg)
    exact ⟨hmg, by simpa using hid⟩
  set o2 := if o1.length < 3 then
      o1 ++ (σ2 ((getBroadCategoryGames pg games c 5).filter
        (fun g => g.id != c.id &&
          !(o1.any (fun og => og.id == g.id))))).take (3 - o1.length)
    else o1 with ho2
  have hOK2 : DecoyOK games c o2 := by
    rw [ho2]
    by_cases hlen : o1.length < 3
    · rw [if_pos hlen]
      refine phase_append_ok hOK1 σ2 h2 (getBroadCategoryGames pg games c 5) _
        (fun g hg => mem_getBroadCategoryGames hg)
        (getBroadCategoryGames_nodup hnd) (fun g hpg => ?_) _
      rw [Bool.and_eq_true] at hpg
      exact ⟨bne_iff_ne.mp hpg.1, not_any_id_facts hpg.2⟩
    · rw [if_neg hlen]; exact hOK1
  by_cases hlen2 : o2.length < 3
  · rw [if_pos hlen2]
    refine phase_append_ok hOK2 σ3 h3 games _ (fun g hg => hg) hnd
      (fun g hpg => ?_) _
    rw [Bool.and_eq_true] at hpg
    obtain ⟨hpg1, hany⟩ := hpg
    rw [Bool.and_eq_true] at hpg1
    exact ⟨bne_iff_ne.mp hpg1.2, not_any_id_facts hany⟩
  · rw [if_neg hlen2]; exact hOK2

theorem buildDecoys_ok (pg : String → List String) (games : List CuratedGame)
    (c : CuratedGame) (σ1 σ2 σ3 σ4 : List CuratedGame → List CuratedGame)
    (h1 : ∀ l, (σ1 l).Perm l) (h2 : ∀ l, (σ2 l).Perm l) (h3 : ∀ l, (σ3 l).Perm l)
    (h4 : ∀ l, (σ4 l).Perm l) (hnd : games.Nodup) :
    DecoyOK games c (buildDecoys pg games c σ1 σ2 σ3 σ4) := by
  have hOK3 := decoysUpTo3_ok pg games c σ1 σ2 σ3 h1 h2 h3 hnd
  simp only [buildDecoys]
  by_cases hlen : (decoysUpTo3 pg games c σ1 σ2 σ3).length < 3
  · rw [if_pos hlen]
    refine phase_append_ok hOK3 σ4 h4 (getHighRatedGames games 78) _
      (fun g hg => (mem_getHighRatedGames hg).1)
      (getHighRatedGames_nodup hnd) (fun g hpg => ?_) _
    rw [Bool.and_eq_true] at hpg
    exact ⟨bne_iff_ne.mp hpg.1, not_any_id_facts hpg.2⟩
  · rw [if_neg hlen]; exact hOK3

/-- With catalog-wide distinct names, any `DecoyOK` decoy list has
duplicate-free names not containing the correct game's name. -/
theorem decoy_names_fresh (games : List CuratedGame) (c : CuratedGame)
    (other : List CuratedGame)
    (hn : (games.map (fun g => g.name)).Nodup) (hc : c ∈ games)
    (hOK : DecoyOK games c other) :
    (other.map (fun g => g.name)).Nodup ∧
    c.name ∉ other.map (fun g => g.name) := by
  have hinj := List.inj_on_of_nodup_map hn
  constructor
  · exact hOK.1.map_on
      (fun x hx y hy hxy => hinj (hOK.2 x hx).1 (hOK.2 y hy).1 hxy)
  · intro hmem
    obtain ⟨g, hg, hgname⟩ := List.mem_map.mp hmem
    have hgc : g = c := hinj (hOK.2 g hg).1 hc hgname
    exact (hOK.2 g hg).2 (by rw [hgc])

/-! Claim C6. -/

/-- C6: with catalog-wide distinct names and arbitrary shuffles (any
functions producing permutations), every successful round has
`correctAnswer` equal to the selected game's name, contained exactly once in
`options`, and `options` free of duplicate names. -/
theorem getRandomGame_options_spec (games : List CuratedGame)
    (pg : String → List String) (yearRand pickRand shotRand : Nat)
    (σ1 σ2 σ3 σ4 : List CuratedGame → List CuratedGame)
    (σopt : List String → List String)
    (hnames : (games.map (fun g => g.name)).Nodup)
    (h1 : ∀ l, (σ1 l).Perm l) (h2 : ∀ l, (σ2 l).Perm l) (h3 : ∀ l, (σ3 l).Perm l)
    (h4 : ∀ l, (σ4 l).Perm l) (hopt : ∀ l, (σopt l).Perm l) :
    ∀ r, getRandomGameWithScreenshot games pg yearRand pickRand shotRand
        σ1 σ2 σ3 σ4 σopt = .ok r →
      r.correctAnswer = r.game.name ∧
      r.correctAnswer ∈ r.options ∧
      r.options.count r.correctAnswer = 1 ∧
      r.options.Nodup := by
  intro r hr
  have hndg : games.Nodup := List.Nodup.of_map _ hnames
  simp only [getRandomGameWithScreenshot] at hr
  split_ifs at hr with hp hs
  cases Except.ok.inj hr
  set c := (selectPool games (randomYearOf yearRand)).get
    ⟨pickRand % (selectPool games (randomYearOf yearRand)).length,
     Nat.mod_lt _ (Nat.pos_of_ne_zero hp)⟩ with hcdef
  have hcpool : c ∈ selectPool games (randomYearOf yearRand) := by
    rw [hcdef]; exact List.get_mem _ _ _
  have hcmem : c ∈ games := mem_selectPool hcpool
  have hOKd := buildDecoys_ok pg games c σ1 σ2 σ3 σ4 h1 h2 h3 h4 hndg
  obtain ⟨hdnodup, hdfresh⟩ :=
    decoy_names_fresh games c (buildDecoys pg games c σ1 σ2 σ3 σ4) hnames hcmem hOKd
  have hbase : (c.name ::
      (buildDecoys pg games c σ1 σ2 σ3 σ4).map (fun g => g.name)).Nodup :=
    List.nodup_cons.mpr ⟨hdfresh, hdnodup⟩
  have hperm := hopt (c.name ::
    (buildDecoys pg games c σ1 σ2 σ3 σ4).map (fun g => g.name))
  refine ⟨rfl, ?_, ?_, ?_⟩
  · exact hperm.mem_iff.mpr (List.mem_cons_self _ _)
  · have hcnt : (σopt (c.name ::
        (buildDecoys pg games c σ1 σ2 σ3 σ4).map (fun g => g.name))).count c.name
        = 1 := by
      rw [hperm.count_eq, List.count_cons_self, List.count_eq_zero.mpr hdfresh]
    exact hcnt
  · exact hperm.nodup_iff.mpr hbase

/-- C6 witness: the one-entry catalog with identity shuffles produces a round
satisfying all four option properties. -/
theorem getRandomGame_options_spec_witness :
    singleRound.correctAnswer = singleRound.game.name ∧
    singleRound.correctAnswer ∈ singleRound.options ∧
    singleRound.options.count singleRound.correctAnswer = 1 ∧
    singleRound.options.Nodup :=
  getRandomGame_options_spec catalogSingle (fun _ => []) 20 0 0 id id id id id
    (by decide) (fun l => List.Perm.refl l) (fun l => List.Perm.refl l)
    (fun l => List.Perm.refl l) (fun l => List.Perm.refl l)
    (fun l => List.Perm.refl l) singleRound rfl

/-! Claim C7. -/

theorem selectPool_fallback (games : List CuratedGame) (y : Int)
    (h : (getGamesByYear games y).length < 4) :
    selectPool games y = (if (getHighRatedGames games 82).length < 4
      then getHighRatedGames games 80 else getHighRatedGames games 82) := by
  simp only [selectPool]
  rw [if_pos h]

theorem selectPool_ne_nil (games : List CuratedGame) (y : Int)
    (hex : ∃ g ∈ games, (80 : Rat) ≤ g.rating) :
    selectPool games y ≠ [] := by
  obtain ⟨g, hg, hr⟩ := hex
  simp only [selectPool]
  split_ifs with h4 h82
  · exact List.ne_nil_of_mem (getHighRatedGames_mem_of hg hr)
  · intro hnil
    exact h82 (by simp [hnil])
  · intro hnil
    exact h4 (by simp [hnil])

theorem getRandom_noGamesFound_iff (games : List CuratedGame)
    (pg : String → List String) (yearRand pickRand shotRand : Nat)
    (σ1 σ2 σ3 σ4 : List CuratedGame → List CuratedGame)
    (σopt : List String → List String) :
    getRandomGameWithScreenshot games pg yearRand pickRand shotRand σ1 σ2 σ3 σ4 σopt
        = .error .noGamesFound ↔
      selectPool games (randomYearOf yearRand) = [] := by
  simp only [getRandomGameWithScreenshot]
  split_ifs with hp hs
  · simp [List.length_eq_zero.mp hp]
  · constructor
    · intro h; exact absurd h (by simp)
    · intro h; exact absurd (by simp [h]) hp
  · constructor
    · intro h; exact absurd h (by simp)
    · intro h; exact absurd (by simp [h]) hp

/-- C7: when the target-year pool is short of the 4 options, it is replaced
by the rating-82 catalog-wide pool, then the rating-80 pool; the
no-games-found error occurs exactly when the final pool is empty, so one
catalog entry rated at least 80 rules it out. -/
theorem selector_fallback_spec (games : List CuratedGame)
    (pg : String → List String) (yearRand pickRand shotRand : Nat)
    (σ1 σ2 σ3 σ4 : List CuratedGame → List CuratedGame)
    (σopt : List String → List String) :
    ((getGamesByYear games (randomYearOf yearRand)).length < 4 →
      selectPool games (randomYearOf yearRand) =
        (if (getHighRatedGames games 82).length < 4
         then getHighRatedGames games 80 else getHighRatedGames games 82)) ∧
    (getRandomGameWithScreenshot games pg yearRand pickRand shotRand σ1 σ2 σ3 σ4 σopt
        = .error .noGamesFound ↔
      selectPool games (randomYearOf yearRand) = []) ∧
    ((∃ g ∈ games, (80 : Rat) ≤ g.rating) →
      getRandomGameWithScreenshot games pg yearRand pickRand shotRand σ1 σ2 σ3 σ4 σopt
        ≠ .error .noGamesFound) :=
  ⟨selectPool_fallback games (randomYearOf yearRand),
   getRandom_noGamesFound_iff games pg yearRand pickRand shotRand σ1 σ2 σ3 σ4 σopt,
   fun hex h => selectPool_ne_nil games (randomYearOf yearRand) hex
     ((getRandom_noGamesFound_iff games pg yearRand pickRand shotRand
        σ1 σ2 σ3 σ4 σopt).mp h)⟩

/-- C7 witness: a catalog with only three year-2005 entries, one rated 80,
falls back instead of raising the no-games-found error. -/
theorem selector_fallback_spec_witness :
    getRandomGameWithScreenshot catalogSparse2005 (fun _ => []) 25 0 0 id id id id id ≠
      Except.error LoaderError.noGamesFound :=
  (selector_fallback_spec catalogSparse2005 (fun _ => []) 25 0 0 id id id id id).2.2
    ⟨mkEntry 3 "Cinder" 2005 80 ["s3"], by decide, by decide⟩

/-! Claim C8. -/

/-- C8 counterexample: on a two-entry catalog whose only decoy candidate is
rated 78, the phase-4 fallback still draws it: "Beta" appears among the
options although no entry named "Beta" meets the claimed threshold 80 — the
fallback pool is `getHighRatedGames games 78`, not 80. -/
theorem tierD_threshold_counterexample :
    getRandomGameWithScreenshot catalogLowRated (fun _ => []) 20 0 0 id id id id id =
      .ok { game := { id := 1, name := "Alpha", background_image := "", slug := "alpha" }
            screenshot := "sa"
            options := ["Alpha", "Beta"]
            correctAnswer := "Alpha" } ∧
    (getHighRatedGames catalogLowRated 80).map (fun g => g.name) = ["Alpha"] ∧
    (getHighRatedGames catalogLowRated 78).map (fun g => g.name) = ["Alpha", "Beta"] :=
  ⟨rfl, rfl, rfl⟩

/-- C8 (amended): whenever phases 1-3 supply fewer than 3 decoys, the global
fallback draws the remainder from the entries with rating at least 78 (not
80), any year, still excluding the correct entry and the already-chosen
decoys by id. -/
theorem buildDecoys_tierD_spec (pg : String → List String)
    (games : List CuratedGame) (c : CuratedGame)
    (σ1 σ2 σ3 σ4 : List CuratedGame → List CuratedGame)
    (h4 : ∀ l, (σ4 l).Perm l) :
    ∃ rest, buildDecoys pg games c σ1 σ2 σ3 σ4 =
        decoysUpTo3 pg games c σ1 σ2 σ3 ++ rest ∧
      ∀ g ∈ rest, g ∈ games ∧ (78 : Rat) ≤ g.rating ∧ g.id ≠ c.id ∧
        ∀ og ∈ decoysUpTo3 pg games c σ1 σ2 σ3, og.id ≠ g.id := by
  simp only [buildDecoys]
  by_cases hlen : (decoysUpTo3 pg games c σ1 σ2 σ3).length < 3
  · rw [if_pos hlen]
    refine ⟨_, rfl, ?_⟩
    intro g hg
    have hg1 := List.mem_of_mem_take hg
    have hg2 := (h4 _).mem_iff.mp hg1
    obtain ⟨hmf, hpred⟩ := List.mem_filter.mp hg2
    obtain ⟨hmem, hrat⟩ := mem_getHighRatedGames hmf
    rw [Bool.and_eq_true] at hpred
    exact ⟨hmem, hrat, bne_iff_ne.mp hpred.1, not_any_id_facts hpred.2⟩
  · rw [if_neg hlen]
    exact ⟨[], by simp, by simp⟩

/-- C8 witness: the fallback characterization instantiated on the concrete
two-entry catalog with identity shuffles. -/
theorem buildDecoys_tierD_spec_witness :
    ∃ rest, buildDecoys (fun _ => []) catalogLowRated entryAlpha id id id id =
        decoysUpTo3 (fun _ => []) catalogLowRated entryAlpha id id id ++ rest ∧
      ∀ g ∈ rest, g ∈ catalogLowRated ∧ (78 : Rat) ≤ g.rating ∧
        g.id ≠ entryAlpha.id ∧
        ∀ og ∈ decoysUpTo3 (fun _ => []) catalogLowRated entryAlpha id id id,
          og.id ≠ g.id :=
  buildDecoys_tierD_spec (fun _ => []) catalogLowRated entryAlpha id id id id
    (fun l => List.Perm.refl l)
